import Mathlib

/-!
Verification of the AWS Lambda layer deployment template against its design
specification.  The two handlers (`create-lambda-layer.py`, the build
orchestrator, and `test-lambda-layer.py`, the deployment validator) are
shallowly embedded as pure Lean functions.  External effects (the PyPI
registry query, the pip subprocess, archive creation, the S3 upload, the
dynamic module import, and the machine introspection calls) are supplied by
explicit oracle/environment records, and the scratch filesystem under /tmp is
modelled by existence flags for the three artifacts the code touches: the
flat `site-packages` staging directory, the nested `python` directory, and
the local zip archive.
-/

/-- Python single-character str.replace, used by the build handler to turn
hyphens into underscores when deriving the import name. -/
def pyReplaceChar (a b : Char) (s : String) : String :=
  ⟨s.data.map fun c => if c = a then b else c⟩

/-- Python str.replace deleting every dot character, applied to the runtime
string when the build handler forms the layer name. -/
def pyRemoveDots (s : String) : String :=
  ⟨s.data.filter fun c => c != '.'⟩

/-- Code-point lexicographic comparison of character lists, as Python
compares strings. -/
def pyStrLtAux : List Char → List Char → Bool
  | [], [] => false
  | [], _ :: _ => true
  | _ :: _, [] => false
  | a :: as, b :: bs =>
    if a.toNat < b.toNat then true
    else if b.toNat < a.toNat then false
    else pyStrLtAux as bs

/-- Python `<` on strings (code-point lexicographic). -/
def pyStrLt (a b : String) : Bool := pyStrLtAux a.data b.data

/-- Ordered insertion used to model Python `sorted` on a list of strings. -/
def pyInsert (x : String) : List String → List String
  | [] => [x]
  | y :: ys => if pyStrLt x y then x :: y :: ys else y :: pyInsert x ys

/-- Python `sorted` on a list of strings (insertion sort; the source list has
pairwise distinct elements, so any correct sort agrees with Python's). -/
def pySorted : List String → List String
  | [] => []
  | x :: xs => pyInsert x (pySorted xs)

/-- The allow-list `SUPPORTED_PACKAGES` from `create-lambda-layer.py`. -/
def SUPPORTED_PACKAGES : List String :=
  ["boto3", "requests", "urllib3", "aws-lambda-powertools", "aws-xray-sdk"]

/-- The PyPI metadata reply observed by `get_latest_package_version`:
the HTTP status and the optional `info.version` field of the JSON body
(`none` also covers a body with no usable version field). -/
structure PyPiResponse where
  status : Nat
  infoVersion : Option String
deriving Repr, DecidableEq

/-- `get_latest_package_version` from `create-lambda-layer.py`: fails unless
the status is 200 and the reply carries a non-empty version, since the
`if not version` guard rejects both a missing field and the empty string;
every failure is re-raised wrapped in the `Failed to get latest version`
message. -/
def get_latest_package_version (package_name : String) (resp : PyPiResponse) :
    Except String String :=
  if resp.status ≠ 200 then
    .error ("Failed to get latest version for " ++ package_name ++
      ": PyPI request failed with status " ++ toString resp.status)
  else
    match resp.infoVersion with
    | some v =>
      if v = "" then
        .error ("Failed to get latest version for " ++ package_name ++
          ": Version information not found in PyPI response")
      else .ok v
    | none =>
      .error ("Failed to get latest version for " ++ package_name ++
        ": Version information not found in PyPI response")

/-- Existence flags for the three scratch artifacts under `/tmp`:
the flat `site-packages` staging directory, the nested `python` directory,
and the local layer zip archive. -/
structure FsState where
  sitePackagesDir : Bool
  pythonDir : Bool
  zipFile : Bool
deriving Repr, DecidableEq

/-- Oracle for the build handler's external effects: the PyPI reply, the
outcome of the pip subprocess, whether `shutil.make_archive` actually
produced the zip file, and the outcome of the S3 upload. -/
structure BuildOracle where
  pypi : PyPiResponse
  pipResult : Except String Unit
  archiveWritesZip : Bool
  uploadResult : Except String Unit

/-- The local zip path chosen by `create_layer_package`: the package name,
runtime version and package version joined by hyphens under /tmp. -/
def zipPathOf (package_name package_version runtime_version : String) : String :=
  "/tmp/" ++ package_name ++ "-" ++ runtime_version ++ "-" ++ package_version ++ ".zip"

/-- `create_layer_package` from `create-lambda-layer.py`, returning the
result (zip path or error message), the final scratch filesystem state, and
the list of external actions performed.  The argument check happens before
the `try`, so its failure bypasses both the wrapping and the `finally`
cleanup; inside the `try`, any failure is wrapped as
`Layer package creation failed: ...` and the `finally` clause removes both
staging directories unconditionally. -/
def create_layer_package (package_name package_version runtime_version : String)
    (o : BuildOracle) (fs : FsState) : Except String String × FsState × List String :=
  if package_name = "" ∨ package_version = "" ∨ runtime_version = "" then
    (.error "Missing required parameters for package installation.", fs, [])
  else
    -- try block: first remove any pre-existing staging dirs and zip file
    let fsClean : FsState := { sitePackagesDir := false, pythonDir := false, zipFile := false }
    let (body, fsBody, acts) :=
      match o.pipResult with
      | .error e => (Except.error e, fsClean, ["pip"])
      | .ok _ =>
        -- pip populated site-packages
        let fsPip : FsState := { fsClean with sitePackagesDir := true }
        -- os.makedirs created the nested python/lib/<runtime> path
        let fsMk : FsState := { fsPip with pythonDir := true }
        -- shutil.move relocated site-packages under the python dir
        let fsMv : FsState := { fsMk with sitePackagesDir := false }
        -- shutil.make_archive wrote the zip iff the oracle says so
        let fsZip : FsState := { fsMv with zipFile := o.archiveWritesZip }
        let zip_file := zipPathOf package_name package_version runtime_version
        if o.archiveWritesZip then (Except.ok zip_file, fsZip, ["pip", "archive"])
        else (Except.error ("Failed to create ZIP file: " ++ zip_file), fsZip, ["pip", "archive"])
    -- finally clause: cleanup temporary directories
    let fsFin : FsState := { fsBody with sitePackagesDir := false, pythonDir := false }
    match body with
    | .ok z => (.ok z, fsFin, acts)
    | .error e => (.error ("Layer package creation failed: " ++ e), fsFin, acts)

/-- The `response_data` shape of the build handler (all-empty by default). -/
structure BuildResponseData where
  s3Location : String
  s3Bucket : String
  s3Key : String
  packageName : String
  packageVersion : String
  packageImportName : String
  compatibleRuntimes : String
  compatibleArchitectures : String
deriving Repr, DecidableEq

/-- The initial `response_data` of the build handler: every field `""`. -/
def defaultBuildResponse : BuildResponseData := ⟨"", "", "", "", "", "", "", ""⟩

/-- The CloudFormation event seen by the build handler: `RequestType` and
the four `ResourceProperties` it reads (absent key modelled as `none`). -/
structure BuildEvent where
  requestType : Option String
  bucketName : Option String
  packageName : Option String
  runtime : Option String
  architecture : Option String
deriving Repr, DecidableEq

/-- Python falsiness of a property value: `not v` holds for a missing key
(`None`) and for the empty string. -/
def isMissing : Option String → Bool
  | none => true
  | some s => s == ""

/-- The `missing_props` list of the build handler, in the insertion order of
the `required_props` dict. -/
def missingProps (ev : BuildEvent) : List String :=
  (if isMissing ev.bucketName then ["BucketName"] else []) ++
  (if isMissing ev.packageName then ["PackageName"] else []) ++
  (if isMissing ev.runtime then ["Runtime"] else []) ++
  (if isMissing ev.architecture then ["Architecture"] else [])

/-- The `layer_name` of the build handler: the dot-free runtime, the
architecture and the package name joined by hyphens. -/
def layerNameOf (runtime architecture package_name : String) : String :=
  pyRemoveDots runtime ++ "-" ++ architecture ++ "-" ++ package_name

/-- `s3_key`: the layer name followed by `.zip`. -/
def s3KeyOf (runtime architecture package_name : String) : String :=
  layerNameOf runtime architecture package_name ++ ".zip"

/-- Outcome of one build-handler invocation: the returned `response_data`,
the status signalled through `cfnresponse.send`, the `reason` keyword passed
to it (when any), the final scratch filesystem state, and the external
actions performed. -/
structure BuildOutcome where
  responseData : BuildResponseData
  cfnStatus : String
  reason : Option String
  fs : FsState
  actions : List String
deriving Repr

/-- `lambda_handler` from `create-lambda-layer.py`. -/
def lambda_handler_build (ev : BuildEvent) (o : BuildOracle) (fs : FsState) : BuildOutcome :=
  if ev.requestType = some "Delete" then
    { responseData := defaultBuildResponse, cfnStatus := "SUCCESS", reason := none,
      fs := fs, actions := [] }
  else
    let bucket_name := ev.bucketName.getD ""
    let package_name := ev.packageName.getD ""
    let runtime := ev.runtime.getD ""
    let architecture := ev.architecture.getD ""
    if missingProps ev ≠ [] then
      { responseData := defaultBuildResponse, cfnStatus := "FAILED",
        reason := some ("Lambda Layer creation failed: Missing required properties: " ++
          String.intercalate ", " (missingProps ev)),
        fs := fs, actions := [] }
    else if package_name ∉ SUPPORTED_PACKAGES then
      { responseData := defaultBuildResponse, cfnStatus := "FAILED",
        reason := some ("Lambda Layer creation failed: Package \x27" ++ package_name ++
          "\x27 is not supported. Supported packages: " ++
          String.intercalate ", " (pySorted SUPPORTED_PACKAGES) ++ "\n"),
        fs := fs, actions := [] }
    else
      match get_latest_package_version package_name o.pypi with
      | .error e =>
        { responseData := defaultBuildResponse, cfnStatus := "FAILED",
          reason := some ("Lambda Layer creation failed: " ++ e),
          fs := fs, actions := ["resolve"] }
      | .ok package_version =>
        let package_import_name := pyReplaceChar '-' '_' package_name
        match create_layer_package package_name package_version runtime o fs with
        | (.error e, fs1, acts) =>
          { responseData := defaultBuildResponse, cfnStatus := "FAILED",
            reason := some ("Lambda Layer creation failed: " ++ e),
            fs := fs1, actions := "resolve" :: acts }
        | (.ok _zip, fs1, acts) =>
          let s3_key := s3KeyOf runtime architecture package_name
          -- try/finally around the upload: the local zip is removed either way
          let fs2 : FsState := { fs1 with zipFile := false }
          match o.uploadResult with
          | .error e =>
            { responseData := defaultBuildResponse, cfnStatus := "FAILED",
              reason := some ("Lambda Layer creation failed: " ++ e),
              fs := fs2, actions := "resolve" :: acts ++ ["upload"] }
          | .ok _ =>
            { responseData :=
                { s3Location := "s3://" ++ bucket_name ++ "/" ++ s3_key,
                  s3Bucket := bucket_name, s3Key := s3_key,
                  packageName := package_name, packageVersion := package_version,
                  packageImportName := package_import_name,
                  compatibleRuntimes := "[\x27" ++ runtime ++ "\x27]",
                  compatibleArchitectures := "[\x27" ++ architecture ++ "\x27]" },
              cfnStatus := "SUCCESS", reason := none,
              fs := fs2, actions := "resolve" :: acts ++ ["upload"] }

/-- Outcome of `importlib.import_module` in the validator: a successful
module import exposing an optional `__version__` attribute, an `ImportError`
caught and mapped to NOT INSTALLED, or any other exception, which propagates
to the outer `except` clause of the handler. -/
inductive ImportOutcome where
  | imported (versionAttr : Option String)
  | importError
  | raised (msg : String)
deriving Repr, DecidableEq

/-- Environment the validator executes in: `sys.version_info` major/minor,
the raw `platform.machine()` string, and the import outcome. -/
structure ValidatorEnv where
  versionMajor : Nat
  versionMinor : Nat
  machineArch : String
  importResult : ImportOutcome
deriving Repr, DecidableEq

/-- The CloudFormation event seen by the validator handler. -/
structure ValidateEvent where
  requestType : Option String
  packageName : Option String
  packageImportName : Option String
  packageVersion : Option String
  runtime : Option String
  architecture : Option String
deriving Repr, DecidableEq

/-- The validator's `response_data` shape. -/
structure ValidateResponseData where
  status : String
  message : String
  testPackage : String
  testPackageVersion : String
  testRuntime : String
  testArchitecture : String
deriving Repr, DecidableEq

/-- The initial validator `response_data`: every field `""`. -/
def defaultValidateResponse : ValidateResponseData := ⟨"", "", "", "", "", ""⟩

/-- The `current_runtime` string of the validator: the word python followed
by the major and minor version numbers separated by a dot. -/
def currentRuntimeOf (env : ValidatorEnv) : String :=
  "python" ++ toString env.versionMajor ++ "." ++ toString env.versionMinor

/-- `current_arch`: `platform.machine()` with the single alias `"aarch64"`
canonicalized to `"arm64"`, every other reading passed through unchanged. -/
def currentArchOf (env : ValidatorEnv) : String :=
  if env.machineArch = "aarch64" then "arm64" else env.machineArch

/-- The `(package_status, installed_version)` pair produced by the
probe block of the validator (only reached when the module import did
not raise a non-ImportError exception). -/
def importStatusOf (env : ValidatorEnv) : String × String :=
  match env.importResult with
  | .imported versionAttr => ("INSTALLED", versionAttr.getD "Version Not Found")
  | _ => ("NOT INSTALLED", "NOT INSTALLED")

/-- `overall_status`: SUCCESS iff all four individual checks pass. -/
def validateVerdict (ev : ValidateEvent) (env : ValidatorEnv)
    (package_status installed_version : String) : String :=
  if package_status = "INSTALLED" ∧ installed_version = ev.packageVersion.getD "N/A" ∧
      currentRuntimeOf env = ev.runtime.getD "N/A" ∧
      currentArchOf env = ev.architecture.getD "N/A"
  then "SUCCESS" else "FAILED"

/-- `test_message`: the target-vs-current diagnostic across all four axes. -/
def validateMessage (ev : ValidateEvent) (env : ValidatorEnv)
    (package_status installed_version : String) : String :=
  "Installation: Target: " ++ ev.packageName.getD "N/A" ++
    ", Current: " ++ package_status ++ ". " ++
  "Version: Target: " ++ ev.packageVersion.getD "N/A" ++
    ", Current: " ++ installed_version ++ ". " ++
  "Runtime: Target: " ++ ev.runtime.getD "N/A" ++
    ", Current: " ++ currentRuntimeOf env ++ ". " ++
  "Architecture: Target: " ++ ev.architecture.getD "N/A" ++
    ", Current: " ++ currentArchOf env ++ ". "

/-- `lambda_handler` from `test-lambda-layer.py`: returns the final
`response_data` together with the status signalled via `cfnresponse.send`. -/
def lambda_handler_validate (ev : ValidateEvent) (env : ValidatorEnv) :
    ValidateResponseData × String :=
  if ev.requestType = some "Delete" then
    (defaultValidateResponse, "SUCCESS")
  else
    match env.importResult with
    | .raised msg =>
      ({ defaultValidateResponse with status := "FAILED", message := msg }, "FAILED")
    | .imported versionAttr =>
      let st := validateVerdict ev env "INSTALLED" (versionAttr.getD "Version Not Found")
      ({ defaultValidateResponse with
          status := st,
          message := validateMessage ev env "INSTALLED" (versionAttr.getD "Version Not Found") },
        st)
    | .importError =>
      let st := validateVerdict ev env "NOT INSTALLED" "NOT INSTALLED"
      ({ defaultValidateResponse with
          status := st,
          message := validateMessage ev env "NOT INSTALLED" "NOT INSTALLED" },
        st)

/-- Some step of the non-delete build pipeline fails: missing properties,
unsupported package, version resolution, pip, archiving, or upload. -/
def anyStepFails (ev : BuildEvent) (o : BuildOracle) : Prop :=
  missingProps ev ≠ [] ∨
  ev.packageName.getD "" ∉ SUPPORTED_PACKAGES ∨
  (∃ e, get_latest_package_version (ev.packageName.getD "") o.pypi = .error e) ∨
  (∃ e, o.pipResult = .error e) ∨
  o.archiveWritesZip = false ∨
  (∃ e, o.uploadResult = .error e)

/-- Mapping the hyphen-to-underscore substitution over a hyphen-free
character list is the identity. -/
theorem map_hyphen_id (l : List Char) (hl : ∀ c ∈ l, c ≠ '-') :
    (l.map fun c => if c = '-' then '_' else c) = l := by
  induction l with
  | nil => rfl
  | cons c cs ih =>
    have hc : c ≠ '-' := hl c (by simp)
    simp [hc, ih (fun d hd => hl d (by simp [hd]))]

/-- The `missing_props` list is empty exactly when none of the four required
properties is Python-falsy. -/
theorem missingProps_nil_iff (ev : BuildEvent) :
    missingProps ev = [] ↔
      isMissing ev.bucketName = false ∧ isMissing ev.packageName = false ∧
      isMissing ev.runtime = false ∧ isMissing ev.architecture = false := by
  cases hb : isMissing ev.bucketName <;> cases hp : isMissing ev.packageName <;>
    cases hr : isMissing ev.runtime <;> cases ha : isMissing ev.architecture <;>
      simp [missingProps, hb, hp, hr, ha]

/-- A property that is not Python-falsy yields a non-empty string. -/
theorem getD_ne_empty_of_not_missing (x : Option String) (h : isMissing x = false) :
    x.getD "" ≠ "" := by
  cases x with
  | none => simp [isMissing] at h
  | some s =>
    simp only [isMissing, beq_iff_eq] at h
    simpa using ne_of_beq_false h

/-- A successfully resolved version string is never empty. -/
theorem get_latest_ok_ne_empty (n : String) (r : PyPiResponse) (v : String)
    (h : get_latest_package_version n r = .ok v) : v ≠ "" := by
  obtain ⟨st, iv⟩ := r
  by_cases hst : st ≠ 200
  · simp [get_latest_package_version, hst] at h
  · cases iv with
    | none => simp [get_latest_package_version, hst] at h
    | some v2 =>
      by_cases hv2 : v2 = ""
      · simp [get_latest_package_version, hst, hv2] at h
      · simp [get_latest_package_version, hst, hv2] at h
        exact h ▸ hv2

/-- Normal form of `create_layer_package` once all three arguments are known
to be non-empty: pip failure and archive failure both leave a fully clean
scratch state, success leaves only the zip file behind. -/
theorem create_layer_package_eq (n v rt : String) (o : BuildOracle) (fs : FsState)
    (hn : n ≠ "") (hv : v ≠ "") (hr : rt ≠ "") :
    create_layer_package n v rt o fs =
      match o.pipResult with
      | .error e =>
        (.error ("Layer package creation failed: " ++ e), ⟨false, false, false⟩, ["pip"])
      | .ok _ =>
        if o.archiveWritesZip then
          (.ok (zipPathOf n v rt), ⟨false, false, true⟩, ["pip", "archive"])
        else
          (.error ("Layer package creation failed: " ++ ("Failed to create ZIP file: " ++
            zipPathOf n v rt)), ⟨false, false, false⟩, ["pip", "archive"]) := by
  cases hp : o.pipResult with
  | error e => simp [create_layer_package, hn, hv, hr, hp]
  | ok u => cases ha : o.archiveWritesZip <;> simp [create_layer_package, hn, hv, hr, hp, ha]

/-- Normal form of a non-delete build-handler invocation that passed both
validation gates and resolved the version `v`: the outcome is decided by the
pip, archive and upload oracles, and the scratch filesystem always ends
fully clean. -/
theorem lambda_handler_build_run (ev : BuildEvent) (o : BuildOracle) (fs : FsState)
    (hdel : ev.requestType ≠ some "Delete")
    (hmiss : missingProps ev = [])
    (hsup : ev.packageName.getD "" ∈ SUPPORTED_PACKAGES)
    (v : String)
    (hver : get_latest_package_version (ev.packageName.getD "") o.pypi = .ok v) :
    lambda_handler_build ev o fs =
      match o.pipResult with
      | .error e =>
        { responseData := defaultBuildResponse, cfnStatus := "FAILED",
          reason := some ("Lambda Layer creation failed: " ++
            ("Layer package creation failed: " ++ e)),
          fs := ⟨false, false, false⟩, actions := ["resolve", "pip"] }
      | .ok _ =>
        if o.archiveWritesZip then
          match o.uploadResult with
          | .error e =>
            { responseData := defaultBuildResponse, cfnStatus := "FAILED",
              reason := some ("Lambda Layer creation failed: " ++ e),
              fs := ⟨false, false, false⟩,
              actions := ["resolve", "pip", "archive", "upload"] }
          | .ok _ =>
            { responseData :=
                { s3Location := "s3://" ++ ev.bucketName.getD "" ++ "/" ++
                    s3KeyOf (ev.runtime.getD "") (ev.architecture.getD "")
                      (ev.packageName.getD ""),
                  s3Bucket := ev.bucketName.getD "",
                  s3Key := s3KeyOf (ev.runtime.getD "") (ev.architecture.getD "")
                    (ev.packageName.getD ""),
                  packageName := ev.packageName.getD "",
                  packageVersion := v,
                  packageImportName := pyReplaceChar '-' '_' (ev.packageName.getD ""),
                  compatibleRuntimes := "[\x27" ++ ev.runtime.getD "" ++ "\x27]",
                  compatibleArchitectures := "[\x27" ++ ev.architecture.getD "" ++ "\x27]" },
              cfnStatus := "SUCCESS", reason := none,
              fs := ⟨false, false, false⟩,
              actions := ["resolve", "pip", "archive", "upload"] }
        else
          { responseData := defaultBuildResponse, cfnStatus := "FAILED",
            reason := some ("Lambda Layer creation failed: " ++
              ("Layer package creation failed: " ++ ("Failed to create ZIP file: " ++
                zipPathOf (ev.packageName.getD "") v (ev.runtime.getD "")))),
            fs := ⟨false, false, false⟩, actions := ["resolve", "pip", "archive"] } := by
  have hmp := (missingProps_nil_iff ev).mp hmiss
  have hn : ev.packageName.getD "" ≠ "" := getD_ne_empty_of_not_missing _ hmp.2.1
  have hr : ev.runtime.getD "" ≠ "" := getD_ne_empty_of_not_missing _ hmp.2.2.1
  have hvne : v ≠ "" := get_latest_ok_ne_empty _ _ _ hver
  have hclp := create_layer_package_eq (ev.packageName.getD "") v (ev.runtime.getD "") o fs
    hn hvne hr
  cases hp : o.pipResult with
  | error e =>
    simp [lambda_handler_build, hdel, hmiss, hsup, hver, hclp, hp]
  | ok u =>
    cases ha : o.archiveWritesZip with
    | false => simp [lambda_handler_build, hdel, hmiss, hsup, hver, hclp, hp, ha]
    | true =>
      cases hu : o.uploadResult <;>
        simp [lambda_handler_build, hdel, hmiss, hsup, hver, hclp, hp, ha, hu]

/-- A scratch filesystem with all three artifacts present. -/
def fsDirty : FsState := ⟨true, true, true⟩

/-- A fully clean scratch filesystem. -/
def fsClean0 : FsState := ⟨false, false, false⟩

/-- An oracle in which every external step succeeds. -/
def oGood : BuildOracle := ⟨⟨200, some "1.35.0"⟩, .ok (), true, .ok ()⟩

/-- A second all-good oracle resolving a different version. -/
def oGood2 : BuildOracle := ⟨⟨200, some "2.0.0"⟩, .ok (), true, .ok ()⟩

/-- An oracle whose S3 upload fails after a successful build. -/
def oUploadFail : BuildOracle := ⟨⟨200, some "1.35.0"⟩, .ok (), true, .error "denied"⟩

/-- A well-formed create event for boto3. -/
def evGood : BuildEvent :=
  ⟨some "Create", some "layer-bucket", some "boto3", some "python3.13", some "arm64"⟩

/-- A second well-formed event agreeing with `evGood` on runtime,
architecture and package name only. -/
def evGood2 : BuildEvent :=
  ⟨some "Update", some "other-bucket", some "boto3", some "python3.13", some "arm64"⟩

/-- An event with a missing bucket name and an empty package name. -/
def evBad : BuildEvent := ⟨some "Create", none, some "", some "python3.13", some "arm64"⟩

/-- A delete event for the build handler. -/
def evDelete : BuildEvent := ⟨some "Delete", none, none, none, none⟩

/-- A well-formed validation event for boto3. -/
def vevGood : ValidateEvent :=
  ⟨some "Create", some "boto3", some "boto3", some "1.35.0", some "python3.13", some "arm64"⟩

/-- A delete event for the validator handler. -/
def vevDelete : ValidateEvent := ⟨some "Delete", none, none, none, none, none⟩

/-- A validator environment matching `vevGood` (raw machine arch aarch64). -/
def envGood : ValidatorEnv := ⟨3, 13, "aarch64", .imported (some "1.35.0")⟩

/-- A validator environment on an x86 machine with the package absent. -/
def envX86 : ValidatorEnv := ⟨3, 12, "x86_64", .importError⟩

/-- Claim C1: on a build event (not Delete, no exception raised by the
module import), the validator reports SUCCESS iff all four comparisons hold
simultaneously (installed-status, version string, runtime string,
canonicalized architecture string), and otherwise reports FAILED, so
breaking any single comparison flips the verdict to FAILED. -/
theorem validator_success_iff (ev : ValidateEvent) (env : ValidatorEnv)
    (hdel : ev.requestType ≠ some "Delete")
    (hraise : ∀ m, env.importResult ≠ ImportOutcome.raised m) :
    ((lambda_handler_validate ev env).1.status = "SUCCESS" ↔
      ((importStatusOf env).1 = "INSTALLED" ∧
       (importStatusOf env).2 = ev.packageVersion.getD "N/A" ∧
       currentRuntimeOf env = ev.runtime.getD "N/A" ∧
       currentArchOf env = ev.architecture.getD "N/A")) ∧
    ((lambda_handler_validate ev env).1.status = "SUCCESS" ∨
     (lambda_handler_validate ev env).1.status = "FAILED") := by
  have hst : (lambda_handler_validate ev env).1.status =
      validateVerdict ev env (importStatusOf env).1 (importStatusOf env).2 := by
    cases h : env.importResult with
    | raised m => exact absurd h (hraise m)
    | imported va => simp [lambda_handler_validate, hdel, h, importStatusOf]
    | importError => simp [lambda_handler_validate, hdel, h, importStatusOf]
  rw [hst]
  by_cases hc : ((importStatusOf env).1 = "INSTALLED" ∧
      (importStatusOf env).2 = ev.packageVersion.getD "N/A" ∧
      currentRuntimeOf env = ev.runtime.getD "N/A" ∧
      currentArchOf env = ev.architecture.getD "N/A")
  · simp only [validateVerdict]
    rw [if_pos hc]
    exact ⟨⟨fun _ => hc, fun _ => rfl⟩, Or.inl rfl⟩
  · simp only [validateVerdict]
    rw [if_neg hc]
    exact ⟨⟨fun hcontra => absurd hcontra (by decide), fun hcc => absurd hcc hc⟩, Or.inr rfl⟩

/-- Witness for C1: the all-matching concrete instance yields SUCCESS. -/
theorem validator_success_iff_witness :
    (lambda_handler_validate vevGood envGood).1.status = "SUCCESS" :=
  ((validator_success_iff vevGood envGood (by decide)
    (fun m h => by simp [envGood] at h)).1).mpr (by decide)

/-- Claim C8: the machine-architecture reading aarch64 is canonicalized to
arm64 before comparison, and every other reading is compared unchanged. -/
theorem arch_alias_canonicalized (env : ValidatorEnv) :
    (env.machineArch = "aarch64" → currentArchOf env = "arm64") ∧
    (env.machineArch ≠ "aarch64" → currentArchOf env = env.machineArch) := by
  constructor <;> intro h <;> simp [currentArchOf, h]

/-- Witness for C8: aarch64 canonicalizes to arm64, x86_64 passes through. -/
theorem arch_alias_canonicalized_witness :
    currentArchOf envGood = "arm64" ∧ currentArchOf envX86 = "x86_64" :=
  ⟨(arch_alias_canonicalized envGood).1 rfl,
   (arch_alias_canonicalized envX86).2 (by decide)⟩

/-- Claim C9: on a Delete event both entry points return the all-empty
default result with a SUCCESS signal, the scratch filesystem untouched and
no external action performed. -/
theorem delete_short_circuit (ev : BuildEvent) (o : BuildOracle) (fs : FsState)
    (vev : ValidateEvent) (env : ValidatorEnv)
    (hb : ev.requestType = some "Delete") (hv : vev.requestType = some "Delete") :
    lambda_handler_build ev o fs =
      { responseData := defaultBuildResponse, cfnStatus := "SUCCESS", reason := none,
        fs := fs, actions := [] } ∧
    lambda_handler_validate vev env = (defaultValidateResponse, "SUCCESS") := by
  constructor
  · simp [lambda_handler_build, hb]
  · simp [lambda_handler_validate, hv]

/-- Witness for C9 at concrete delete events. -/
theorem delete_short_circuit_witness :
    lambda_handler_build evDelete oGood fsDirty =
      { responseData := defaultBuildResponse, cfnStatus := "SUCCESS", reason := none,
        fs := fsDirty, actions := [] } ∧
    lambda_handler_validate vevDelete envGood = (defaultValidateResponse, "SUCCESS") :=
  delete_short_circuit evDelete oGood fsDirty vevDelete envGood rfl rfl

/-- Claim C10: on every validator invocation, including SUCCESS verdicts,
the returned TestPackage, TestPackageVersion, TestRuntime and
TestArchitecture fields are the empty string. -/
theorem validator_test_fields_empty (ev : ValidateEvent) (env : ValidatorEnv) :
    (lambda_handler_validate ev env).1.testPackage = "" ∧
    (lambda_handler_validate ev env).1.testPackageVersion = "" ∧
    (lambda_handler_validate ev env).1.testRuntime = "" ∧
    (lambda_handler_validate ev env).1.testArchitecture = "" := by
  unfold lambda_handler_validate
  split
  · simp [defaultValidateResponse]
  · cases h : env.importResult <;> simp [defaultValidateResponse]

/-- On a successful non-delete build invocation the reported S3 key is the
deterministic key derived from the runtime, architecture and package name. -/
theorem build_s3Key_of_success (ev : BuildEvent) (o : BuildOracle) (fs : FsState)
    (hdel : ev.requestType ≠ some "Delete")
    (hs : (lambda_handler_build ev o fs).cfnStatus = "SUCCESS") :
    (lambda_handler_build ev o fs).responseData.s3Key =
      s3KeyOf (ev.runtime.getD "") (ev.architecture.getD "") (ev.packageName.getD "") := by
  by_cases hm : missingProps ev = []
  · by_cases hsup : ev.packageName.getD "" ∈ SUPPORTED_PACKAGES
    · cases hver : get_latest_package_version (ev.packageName.getD "") o.pypi with
      | error e => simp [lambda_handler_build, hdel, hm, hsup, hver] at hs
      | ok v =>
        have hrun := lambda_handler_build_run ev o fs hdel hm hsup v hver
        rw [hrun] at hs ⊢
        cases hp : o.pipResult with
        | error e => simp [hp] at hs
        | ok u =>
          cases ha : o.archiveWritesZip with
          | false => simp [hp, ha] at hs
          | true =>
            cases hu : o.uploadResult with
            | error e => simp [hp, ha, hu] at hs
            | ok u2 => simp [hp, ha, hu]
    · simp [lambda_handler_build, hdel, hm, hsup] at hs
  · simp [lambda_handler_build, hdel, hm] at hs

/-- Counterexample to claim C3 as stated: at runtime python3.13,
architecture arm64 and package boto3 the produced key is not the plain
concatenation of the dot-free runtime, the architecture and the name,
because the code joins the three components with hyphens. -/
theorem s3_key_no_delimiter_counterexample :
    ¬ (s3KeyOf "python3.13" "arm64" "boto3" =
       pyRemoveDots "python3.13" ++ "arm64" ++ "boto3" ++ ".zip") := by decide

/-- Claim C3 (amended): the content-store key is the dot-free runtime, the
architecture and the package name joined by single hyphens, followed by
.zip, and every successful orchestrator invocation reports exactly that
key. -/
theorem s3_key_format (runtime architecture package_name : String)
    (ev : BuildEvent) (o : BuildOracle) (fs : FsState)
    (hdel : ev.requestType ≠ some "Delete")
    (hs : (lambda_handler_build ev o fs).cfnStatus = "SUCCESS") :
    s3KeyOf runtime architecture package_name =
      pyRemoveDots runtime ++ "-" ++ architecture ++ "-" ++ package_name ++ ".zip" ∧
    (lambda_handler_build ev o fs).responseData.s3Key =
      pyRemoveDots (ev.runtime.getD "") ++ "-" ++ (ev.architecture.getD "") ++ "-" ++
        (ev.packageName.getD "") ++ ".zip" := by
  constructor
  · rfl
  · rw [build_s3Key_of_success ev o fs hdel hs]; rfl

/-- Witness for C3 (amended) at a concrete successful invocation. -/
theorem s3_key_format_witness :
    s3KeyOf "python3.13" "arm64" "boto3" =
      pyRemoveDots "python3.13" ++ "-" ++ "arm64" ++ "-" ++ "boto3" ++ ".zip" ∧
    (lambda_handler_build evGood oGood fsDirty).responseData.s3Key =
      pyRemoveDots (evGood.runtime.getD "") ++ "-" ++ (evGood.architecture.getD "") ++ "-" ++
        (evGood.packageName.getD "") ++ ".zip" :=
  s3_key_format "python3.13" "arm64" "boto3" evGood oGood fsDirty (by decide) (by decide)

/-- Claim C4: the reported S3 key is a pure function of the Runtime,
Architecture and PackageName inputs: two successful invocations agreeing on
those three properties report the identical key, whatever the bucket,
resolved version, oracle or initial scratch state. -/
theorem s3_key_deterministic (ev1 ev2 : BuildEvent) (o1 o2 : BuildOracle)
    (fs1 fs2 : FsState)
    (hrt : ev1.runtime = ev2.runtime) (ha : ev1.architecture = ev2.architecture)
    (hp : ev1.packageName = ev2.packageName)
    (hd1 : ev1.requestType ≠ some "Delete") (hd2 : ev2.requestType ≠ some "Delete")
    (h1 : (lambda_handler_build ev1 o1 fs1).cfnStatus = "SUCCESS")
    (h2 : (lambda_handler_build ev2 o2 fs2).cfnStatus = "SUCCESS") :
    (lambda_handler_build ev1 o1 fs1).responseData.s3Key =
      (lambda_handler_build ev2 o2 fs2).responseData.s3Key := by
  rw [build_s3Key_of_success ev1 o1 fs1 hd1 h1, build_s3Key_of_success ev2 o2 fs2 hd2 h2,
    hrt, ha, hp]

/-- Witness for C4: different buckets, resolved versions and initial scratch
states, identical key. -/
theorem s3_key_deterministic_witness :
    (lambda_handler_build evGood oGood fsDirty).responseData.s3Key =
      (lambda_handler_build evGood2 oGood2 fsClean0).responseData.s3Key :=
  s3_key_deterministic evGood evGood2 oGood oGood2 fsDirty fsClean0 rfl rfl rfl
    (by decide) (by decide) (by decide) (by decide)

/-- Claim C6: the import-name derivation replaces every hyphen with an
underscore; a hyphen-free name maps to itself and aws-lambda-powertools
maps to aws_lambda_powertools. -/
theorem import_name_derivation (s : String) (h : ∀ c ∈ s.data, c ≠ '-') :
    pyReplaceChar '-' '_' s = s ∧
    pyReplaceChar '-' '_' "aws-lambda-powertools" = "aws_lambda_powertools" := by
  refine ⟨?_, by decide⟩
  cases s with
  | mk l => exact congrArg String.mk (map_hyphen_id l h)

/-- Witness for C6 on hyphen-free and hyphenated concrete names. -/
theorem import_name_derivation_witness :
    pyReplaceChar '-' '_' "boto3" = "boto3" ∧
    pyReplaceChar '-' '_' "aws-lambda-powertools" = "aws_lambda_powertools" :=
  import_name_derivation "boto3" (by decide)

/-- Normal form of the build handler when a required property is missing. -/
theorem lambda_handler_build_missing_eq (ev : BuildEvent) (o : BuildOracle) (fs : FsState)
    (hdel : ev.requestType ≠ some "Delete") (hm : missingProps ev ≠ []) :
    lambda_handler_build ev o fs =
      { responseData := defaultBuildResponse, cfnStatus := "FAILED",
        reason := some ("Lambda Layer creation failed: Missing required properties: " ++
          String.intercalate ", " (missingProps ev)),
        fs := fs, actions := [] } := by
  simp [lambda_handler_build, hdel, hm]

/-- Normal form of the build handler when the package is not supported. -/
theorem lambda_handler_build_unsupported_eq (ev : BuildEvent) (o : BuildOracle) (fs : FsState)
    (hdel : ev.requestType ≠ some "Delete") (hm : missingProps ev = [])
    (hsup : ev.packageName.getD "" ∉ SUPPORTED_PACKAGES) :
    lambda_handler_build ev o fs =
      { responseData := defaultBuildResponse, cfnStatus := "FAILED",
        reason := some ("Lambda Layer creation failed: Package \x27" ++
          ev.packageName.getD "" ++ "\x27 is not supported. Supported packages: " ++
          String.intercalate ", " (pySorted SUPPORTED_PACKAGES) ++ "\n"),
        fs := fs, actions := [] } := by
  simp [lambda_handler_build, hdel, hm, hsup]

/-- Normal form of the build handler when version resolution fails. -/
theorem lambda_handler_build_resolveerr_eq (ev : BuildEvent) (o : BuildOracle) (fs : FsState)
    (hdel : ev.requestType ≠ some "Delete") (hm : missingProps ev = [])
    (hsup : ev.packageName.getD "" ∈ SUPPORTED_PACKAGES) (e : String)
    (hver : get_latest_package_version (ev.packageName.getD "") o.pypi = .error e) :
    lambda_handler_build ev o fs =
      { responseData := defaultBuildResponse, cfnStatus := "FAILED",
        reason := some ("Lambda Layer creation failed: " ++ e),
        fs := fs, actions := ["resolve"] } := by
  simp [lambda_handler_build, hdel, hm, hsup, hver]

/-- Claim C2: on a non-delete event the handler signals FAILED exactly when
some pipeline step fails; every FAILED report carries the all-empty result
record, and a populated result record occurs only on a SUCCESS report backed
by a successful upload. -/
theorem build_failure_empty_result (ev : BuildEvent) (o : BuildOracle) (fs : FsState)
    (hdel : ev.requestType ≠ some "Delete") :
    ((lambda_handler_build ev o fs).cfnStatus = "FAILED" ↔ anyStepFails ev o) ∧
    ((lambda_handler_build ev o fs).cfnStatus = "FAILED" →
      (lambda_handler_build ev o fs).responseData = defaultBuildResponse) ∧
    ((lambda_handler_build ev o fs).responseData ≠ defaultBuildResponse →
      (lambda_handler_build ev o fs).cfnStatus = "SUCCESS" ∧
        o.uploadResult = .ok ()) := by
  by_cases hm : missingProps ev = []
  · by_cases hsup : ev.packageName.getD "" ∈ SUPPORTED_PACKAGES
    · cases hver : get_latest_package_version (ev.packageName.getD "") o.pypi with
      | error e =>
        rw [lambda_handler_build_resolveerr_eq ev o fs hdel hm hsup e hver]
        exact ⟨⟨fun _ => Or.inr (Or.inr (Or.inl ⟨e, hver⟩)), fun _ => rfl⟩,
          fun _ => rfl, fun hne => absurd rfl hne⟩
      | ok v =>
        rw [lambda_handler_build_run ev o fs hdel hm hsup v hver]
        cases hp : o.pipResult with
        | error e =>
          exact ⟨⟨fun _ => Or.inr (Or.inr (Or.inr (Or.inl ⟨e, hp⟩))), fun _ => rfl⟩,
            fun _ => rfl, fun hne => absurd rfl hne⟩
        | ok u =>
          cases ha : o.archiveWritesZip with
          | false =>
            exact ⟨⟨fun _ => Or.inr (Or.inr (Or.inr (Or.inr (Or.inl ha)))), fun _ => rfl⟩,
              fun _ => rfl, fun hne => absurd rfl hne⟩
          | true =>
            cases hu : o.uploadResult with
            | error e =>
              exact ⟨⟨fun _ => Or.inr (Or.inr (Or.inr (Or.inr (Or.inr ⟨e, hu⟩)))),
                fun _ => rfl⟩, fun _ => rfl, fun hne => absurd rfl hne⟩
            | ok u2 =>
              cases u2
              have noFail : ¬ anyStepFails ev o := by
                rintro (h | h | ⟨e, he⟩ | ⟨e, he⟩ | h | ⟨e, he⟩)
                · exact h hm
                · exact h hsup
                · rw [hver] at he; exact Except.noConfusion he
                · rw [hp] at he; exact Except.noConfusion he
                · rw [ha] at h; exact Bool.noConfusion h
                · rw [hu] at he; exact Except.noConfusion he
              exact ⟨⟨fun hfs => absurd (show ("SUCCESS" : String) = "FAILED" from hfs)
                    (by decide),
                  fun hsf => absurd hsf noFail⟩,
                fun hfs => absurd (show ("SUCCESS" : String) = "FAILED" from hfs) (by decide),
                fun _ => ⟨rfl, rfl⟩⟩
    · rw [lambda_handler_build_unsupported_eq ev o fs hdel hm hsup]
      exact ⟨⟨fun _ => Or.inr (Or.inl hsup), fun _ => rfl⟩,
        fun _ => rfl, fun hne => absurd rfl hne⟩
  · rw [lambda_handler_build_missing_eq ev o fs hdel hm]
    exact ⟨⟨fun _ => Or.inl hm, fun _ => rfl⟩, fun _ => rfl, fun hne => absurd rfl hne⟩

/-- Witness for C2: a failed upload yields FAILED with the all-empty record. -/
theorem build_failure_empty_result_witness :
    (lambda_handler_build evGood oUploadFail fsDirty).cfnStatus = "FAILED" ∧
    (lambda_handler_build evGood oUploadFail fsDirty).responseData = defaultBuildResponse := by
  have h := build_failure_empty_result evGood oUploadFail fsDirty (by decide)
  have hf : (lambda_handler_build evGood oUploadFail fsDirty).cfnStatus = "FAILED" :=
    h.1.mpr (Or.inr (Or.inr (Or.inr (Or.inr (Or.inr ⟨"denied", rfl⟩)))))
  exact ⟨hf, h.2.1 hf⟩

/-- Claim C5: after any build attempt (any pip/archive/upload outcome) the
scratch root holds no staging directory and no zip archive when the handler
returns, and `create_layer_package` itself always clears both staging
directories. -/
theorem staging_cleanup (ev : BuildEvent) (o : BuildOracle) (fs : FsState)
    (hdel : ev.requestType ≠ some "Delete")
    (hmiss : missingProps ev = [])
    (hsup : ev.packageName.getD "" ∈ SUPPORTED_PACKAGES)
    (hver : ∃ v, get_latest_package_version (ev.packageName.getD "") o.pypi = .ok v) :
    (lambda_handler_build ev o fs).fs = ⟨false, false, false⟩ ∧
    (∀ (n v2 rt : String) (o2 : BuildOracle) (fs2 : FsState),
      n ≠ "" → v2 ≠ "" → rt ≠ "" →
      ((create_layer_package n v2 rt o2 fs2).2.1.sitePackagesDir = false ∧
       (create_layer_package n v2 rt o2 fs2).2.1.pythonDir = false)) := by
  constructor
  · obtain ⟨v, hv⟩ := hver
    rw [lambda_handler_build_run ev o fs hdel hmiss hsup v hv]
    cases hp : o.pipResult with
    | error e => rfl
    | ok u =>
      cases ha : o.archiveWritesZip with
      | false => rfl
      | true =>
        cases hu : o.uploadResult with
        | error e => rfl
        | ok u2 => rfl
  · intro n v2 rt o2 fs2 hn hv2 hrt
    rw [create_layer_package_eq n v2 rt o2 fs2 hn hv2 hrt]
    cases hp : o2.pipResult with
    | error e => exact ⟨rfl, rfl⟩
    | ok u =>
      cases ha : o2.archiveWritesZip with
      | false => exact ⟨rfl, rfl⟩
      | true => exact ⟨rfl, rfl⟩

/-- Witness for C5: even with a failing upload the scratch root ends clean. -/
theorem staging_cleanup_witness :
    (lambda_handler_build evGood oUploadFail fsDirty).fs = ⟨false, false, false⟩ :=
  (staging_cleanup evGood oUploadFail fsDirty (by decide) (by decide) (by decide)
    ⟨"1.35.0", rfl⟩).1

/-- Claim C7: validation is ordered fail-fast.  A missing-property violation
wins outright, producing one combined error naming exactly the missing
properties and performing no external action; only with all four properties
present is the allow-list checked, and an unsupported name fails with a
message enumerating the full sorted allow-list, again with no external
action. -/
theorem validation_order (ev : BuildEvent) (o : BuildOracle) (fs : FsState)
    (hdel : ev.requestType ≠ some "Delete") :
    (missingProps ev ≠ [] →
      (lambda_handler_build ev o fs).cfnStatus = "FAILED" ∧
      (lambda_handler_build ev o fs).reason =
        some ("Lambda Layer creation failed: Missing required properties: " ++
          String.intercalate ", " (missingProps ev)) ∧
      (lambda_handler_build ev o fs).actions = []) ∧
    (("BucketName" ∈ missingProps ev ↔ isMissing ev.bucketName = true) ∧
     ("PackageName" ∈ missingProps ev ↔ isMissing ev.packageName = true) ∧
     ("Runtime" ∈ missingProps ev ↔ isMissing ev.runtime = true) ∧
     ("Architecture" ∈ missingProps ev ↔ isMissing ev.architecture = true)) ∧
    (missingProps ev = [] → ev.packageName.getD "" ∉ SUPPORTED_PACKAGES →
      (lambda_handler_build ev o fs).cfnStatus = "FAILED" ∧
      (lambda_handler_build ev o fs).reason =
        some ("Lambda Layer creation failed: Package \x27" ++
          ev.packageName.getD "" ++ "\x27 is not supported. Supported packages: " ++
          String.intercalate ", " (pySorted SUPPORTED_PACKAGES) ++ "\n") ∧
      (lambda_handler_build ev o fs).actions = []) ∧
    pySorted SUPPORTED_PACKAGES =
      ["aws-lambda-powertools", "aws-xray-sdk", "boto3", "requests", "urllib3"] := by
  refine ⟨fun hm => ?_, ?_, fun hm hsup => ?_, by decide⟩
  · rw [lambda_handler_build_missing_eq ev o fs hdel hm]
    exact ⟨rfl, rfl, rfl⟩
  · cases hb : isMissing ev.bucketName <;> cases hp2 : isMissing ev.packageName <;>
      cases hr2 : isMissing ev.runtime <;> cases ha2 : isMissing ev.architecture <;>
        simp [missingProps, hb, hp2, hr2, ha2]
  · rw [lambda_handler_build_unsupported_eq ev o fs hdel hm hsup]
    exact ⟨rfl, rfl, rfl⟩

/-- Witness for C7: a concrete event missing two properties fails with the
combined message and no external action. -/
theorem validation_order_witness :
    (lambda_handler_build evBad oGood fsDirty).cfnStatus = "FAILED" ∧
    (lambda_handler_build evBad oGood fsDirty).reason =
      some ("Lambda Layer creation failed: Missing required properties: " ++
        String.intercalate ", " (missingProps evBad)) ∧
    (lambda_handler_build evBad oGood fsDirty).actions = [] :=
  (validation_order evBad oGood fsDirty (by decide)).1 (by decide)
